import Mathlib

/-!
Verification of `generate_3d_mesh_from_image` (src/api_Code.py).

The source is a sequential orchestration routine around a remote Gradio
service.  We embed it shallowly:

* the local filesystem is an explicit `FS` value: an association list from
  paths (component lists, mirroring `os.path.join` / `os.path.basename`)
  to file contents, a set of directories, and a set of paths lacking read
  permission (POSIX metadata that `os.path.exists` ignores);
* the remote service (`gradio_client.Client` plus its three `predict`
  endpoints) is a `RemoteStub` describing the outcome of each remote
  interaction, exactly as the spec's testable properties postulate a stub
  service; `shutil.copy` from a `predict`-returned temp path is modelled by
  writing the artifact's content at the destination path (the temp file
  returned by a successful `predict` is always readable, so these copies
  succeed whenever the predict call did);
* every remote interaction is logged in an event trace so that claims
  about call counts and call order are statable;
* the Python control flow — early `return None` on validation failure,
  the single `try/except Exception: return None`, and the
  `finally: if client: client.close()` whose own exception would replace
  the pending return value — is reproduced branch for branch in
  `generate_3d_mesh_from_image` below.  `Outcome.ok` is the returned
  `(obj_filename, glb_filename)` tuple, `Outcome.failed` is `return None`,
  and `Outcome.raised` is an exception escaping the function (which in the
  source can only come from `client.close()` raising in the `finally`
  block).
-/

namespace InstantMesh

/-- A filesystem path as its list of components; `os.path.join d name`
appends one component and `os.path.basename` takes the last one. -/
abbrev Path := List String

/-- Look a path up in an association list of files. -/
def findFile : List (Path × String) → Path → Option String
  | [], _ => none
  | (q, c) :: r, p => if q = p then some c else findFile r p

/-- Boolean membership of a path in a list of paths. -/
def memPath : List Path → Path → Bool
  | [], _ => false
  | q :: r, p => if q = p then true else memPath r p

/-- Local filesystem state: file contents, existing directories, and the
set of paths whose read permission is denied (metadata that exists on a
real filesystem; no operation of this script ever consults it). -/
structure FS where
  files : List (Path × String)
  dirs : List Path
  unreadable : List Path
deriving DecidableEq

/-- `os.path.exists`: true if a file or a directory is present at the
path.  It checks existence only — read permission is not consulted. -/
def pathExists (fs : FS) (p : Path) : Bool :=
  (findFile fs.files p).isSome || memPath fs.dirs p

/-- Write (create or overwrite) a file, keeping entry order. -/
def setFile : List (Path × String) → Path → String → List (Path × String)
  | [], p, c => [(p, c)]
  | (q, d) :: r, p, c => if q = p then (p, c) :: r else (q, d) :: setFile r p c

/-- Filesystem after a write. -/
def writeFile (fs : FS) (p : Path) (c : String) : FS :=
  { fs with files := setFile fs.files p c }

/-- `os.makedirs(d, exist_ok=True)`: succeeds if `d` is already a
directory or can be created; raises `OSError` (here: `none`) when a
regular file occupies the path. -/
def makedirs (fs : FS) (d : Path) : Option FS :=
  if (findFile fs.files d).isSome then none
  else some { fs with dirs := if memPath fs.dirs d then fs.dirs else d :: fs.dirs }

/-- `os.path.join output_dir name`. -/
def joinPath (d : Path) (name : String) : Path := d ++ [name]

/-- `os.path.basename`: the last path component. -/
def basename (p : Path) : String := p.getLastD ""

/-- A remote artifact: the server-side temp path `client.predict` returns,
together with the bytes that a `shutil.copy` from that path reproduces. -/
structure Artifact where
  path : Path
  content : String
deriving DecidableEq

/-- Stub behaviour of the remote service for one invocation: whether
`Client("TencentARC/InstantMesh")` succeeds, the result of each of the
three `predict` endpoints (`none` = the call raises), and whether
`client.close()` succeeds.  `make3dResult` returning a pair of artifacts
mirrors `/make3d` returning exactly two artifact references. -/
structure RemoteStub where
  connectOk : Bool
  preprocessResult : Option Artifact
  generateMvsResult : Option Artifact
  make3dResult : Option (Artifact × Artifact)
  closeOk : Bool
deriving DecidableEq

/-- One remote interaction, with the arguments the source passes:
`/preprocess` gets the input image and the background flag, `/generate_mvs`
gets the stage-1 artifact path plus steps and seed, and `/make3d` is
invoked with no explicit artifact arguments. -/
inductive Event where
  | connect
  | preprocess (input : Path) (removeBackground : Bool)
  | generateMvs (input : Path) (sampleSteps sampleSeed : Int)
  | make3d
  | close
deriving DecidableEq

/-- What the Python function does from the caller's point of view:
return the `(obj, glb)` tuple, return `None`, or let an exception escape
(possible only when `client.close()` raises in the `finally` block). -/
inductive Outcome where
  | ok (objPath glbPath : Path)
  | failed
  | raised
deriving DecidableEq

/-- Result of one invocation: the outcome, the final filesystem, and the
trace of remote interactions in order. -/
structure RunResult where
  outcome : Outcome
  fs : FS
  trace : List Event
deriving DecidableEq

/-- The `finally: if client: client.close()` block, reached whenever the
`Client` constructor had succeeded.  The close call is always recorded;
if it raises, the exception replaces the pending return value (Python
semantics of an exception inside `finally`). -/
def finishWith (stub : RemoteStub) (o : Outcome) (fs : FS) (tr : List Event) : RunResult :=
  if stub.closeOk then ⟨o, fs, tr ++ [Event.close]⟩
  else ⟨Outcome.raised, fs, tr ++ [Event.close]⟩

/-- Shallow embedding of `generate_3d_mesh_from_image` (src/api_Code.py,
lines 7–124), branch for branch:
1. `os.path.exists` validation — `return None` with no remote interaction;
2. `os.makedirs(output_dir, exist_ok=True)` — `return None` on `OSError`,
   still no remote interaction;
3. `Client(...)` — if it raises, the `except` returns `None` and the
   `finally` skips `close` because `client` is still `None`;
4. `/preprocess`, copy to `preprocessed_image.png`; `/generate_mvs`, copy
   to `multiview_generation.png`; `/make3d`, copy both meshes under their
   remote basenames; any raise is caught by the single `except` and turned
   into `None`, keeping artifacts already copied;
5. on success return `(obj_filename, glb_filename)` — only those two. -/
def generate_3d_mesh_from_image (stub : RemoteStub) (fs : FS)
    (input_image_path : Path) (output_dir : Path)
    (do_remove_background : Bool) (sample_steps sample_seed : Int) : RunResult :=
  if pathExists fs input_image_path = false then ⟨Outcome.failed, fs, []⟩
  else
    match makedirs fs output_dir with
    | none => ⟨Outcome.failed, fs, []⟩
    | some fs1 =>
      if stub.connectOk = false then ⟨Outcome.failed, fs1, [Event.connect]⟩
      else
        match stub.preprocessResult with
        | none =>
            finishWith stub Outcome.failed fs1
              [Event.connect, Event.preprocess input_image_path do_remove_background]
        | some a1 =>
          let preprocessed_filename := joinPath output_dir "preprocessed_image.png"
          let fs2 := writeFile fs1 preprocessed_filename a1.content
          match stub.generateMvsResult with
          | none =>
              finishWith stub Outcome.failed fs2
                [Event.connect, Event.preprocess input_image_path do_remove_background,
                 Event.generateMvs a1.path sample_steps sample_seed]
          | some a2 =>
            let multiview_filename := joinPath output_dir "multiview_generation.png"
            let fs3 := writeFile fs2 multiview_filename a2.content
            match stub.make3dResult with
            | none =>
                finishWith stub Outcome.failed fs3
                  [Event.connect, Event.preprocess input_image_path do_remove_background,
                   Event.generateMvs a1.path sample_steps sample_seed, Event.make3d]
            | some (aObj, aGlb) =>
              let obj_filename := joinPath output_dir (basename aObj.path)
              let glb_filename := joinPath output_dir (basename aGlb.path)
              let fs4 := writeFile fs3 obj_filename aObj.content
              let fs5 := writeFile fs4 glb_filename aGlb.content
              finishWith stub (Outcome.ok obj_filename glb_filename) fs5
                [Event.connect, Event.preprocess input_image_path do_remove_background,
                 Event.generateMvs a1.path sample_steps sample_seed, Event.make3d]

/-- The local paths carried by the returned value: the source returns the
tuple `(obj_filename, glb_filename)` on success and `None` otherwise. -/
def resultPaths : Outcome → List Path
  | Outcome.ok o g => [o, g]
  | _ => []

/-- Count occurrences of an event in a trace. -/
def countEvent (e : Event) : List Event → Nat
  | [] => 0
  | f :: r => (if f = e then 1 else 0) + countEvent e r

/-- Tags of the three pipeline stages, for stating call-order facts. -/
inductive StageTag where
  | preprocessTag
  | generateMvsTag
  | make3dTag
deriving DecidableEq

/-- Project a trace onto the pipeline-stage calls it contains, in order. -/
def stageTags : List Event → List StageTag
  | [] => []
  | Event.preprocess _ _ :: r => StageTag.preprocessTag :: stageTags r
  | Event.generateMvs _ _ _ :: r => StageTag.generateMvsTag :: stageTags r
  | Event.make3d :: r => StageTag.make3dTag :: stageTags r
  | Event.connect :: r => stageTags r
  | Event.close :: r => stageTags r

/-- The stage sequences the fixed pipeline order allows: an in-order run
of preprocess, then multi-view, then reconstruct, cut off at any point. -/
def stageOrderOk : List StageTag → Bool
  | [] => true
  | [StageTag.preprocessTag] => true
  | [StageTag.preprocessTag, StageTag.generateMvsTag] => true
  | [StageTag.preprocessTag, StageTag.generateMvsTag, StageTag.make3dTag] => true
  | _ => false

/-- All local paths this invocation may write a file at: the two fixed
conventional artifact names and, when `/make3d` returns, the two
remote-assigned mesh basenames, all inside `output_dir`. -/
def artifactPaths (stub : RemoteStub) (out : Path) : List Path :=
  joinPath out "preprocessed_image.png" :: joinPath out "multiview_generation.png" ::
    (match stub.make3dResult with
     | some (aObj, aGlb) => [joinPath out (basename aObj.path), joinPath out (basename aGlb.path)]
     | none => [])

/-- A stub on which every remote interaction succeeds, with the mesh
artifacts carrying the deterministic basenames `mesh.obj` and `mesh.glb`. -/
def stubAllOk : RemoteStub :=
  { connectOk := true
    preprocessResult := some ⟨["tmp", "p.png"], "proc"⟩
    generateMvsResult := some ⟨["tmp", "m.png"], "mv"⟩
    make3dResult := some (⟨["tmp", "mesh.obj"], "OBJ"⟩, ⟨["tmp", "mesh.glb"], "GLB"⟩)
    closeOk := true }

/-- A filesystem holding just the input image `in.png`. -/
def fsInput : FS := ⟨[(["in.png"], "img")], [], []⟩

/-! Lookup and path lemmas used throughout. -/

theorem findFile_setFile (l : List (Path × String)) (p : Path) (c : String) (q : Path) :
    findFile (setFile l p c) q = if p = q then some c else findFile l q := by
  induction l with
  | nil => simp [setFile, findFile]
  | cons hd tl ih =>
    obtain ⟨k, v⟩ := hd
    by_cases h : k = p
    · subst h
      simp only [setFile, if_pos rfl, findFile]
      by_cases h2 : k = q
      · simp [h2]
      · simp [h2]
    · simp only [setFile, if_neg h, findFile, ih]
      by_cases h1 : k = q
      · subst h1
        have hnp : ¬ p = k := fun hh => h hh.symm
        simp [hnp]
      · simp [h1]

theorem joinPath_inj {d : Path} {a b : String} : joinPath d a = joinPath d b ↔ a = b := by
  unfold joinPath
  constructor
  · intro h
    have := List.append_cancel_left h
    simpa using this
  · intro h
    rw [h]

theorem joinPath_ne_self (d : Path) (a : String) : joinPath d a ≠ d := by
  intro h
  have : (joinPath d a).length = d.length := by rw [h]
  simp [joinPath] at this

/-- C2: when validation fails — the input image path does not exist, or the
output directory cannot be created because a regular file occupies its
path — the function returns the failure value `None` before any remote
interaction: the remote trace is empty, so zero remote calls are made and
no remote session is opened. -/
theorem C2_validation_failure_no_remote_calls
    (stub : RemoteStub) (fs : FS) (inp out : Path) (rb : Bool) (st sd : Int)
    (h : pathExists fs inp = false ∨ (findFile fs.files out).isSome = true) :
    (generate_3d_mesh_from_image stub fs inp out rb st sd).outcome = Outcome.failed ∧
    (generate_3d_mesh_from_image stub fs inp out rb st sd).trace = [] := by
  unfold generate_3d_mesh_from_image makedirs
  rcases h with h | h
  · simp [h]
  · cases h1 : pathExists fs inp
    · simp
    · simp [h, h1]

theorem C2_witness :
    (pathExists ⟨[], [], []⟩ ["in.png"] = false ∨
      (findFile (FS.mk [] [] []).files ["o"]).isSome = true) ∧
    (generate_3d_mesh_from_image stubAllOk ⟨[], [], []⟩ ["in.png"] ["o"] true 75 42).outcome
      = Outcome.failed ∧
    (generate_3d_mesh_from_image stubAllOk ⟨[], [], []⟩ ["in.png"] ["o"] true 75 42).trace = [] :=
  ⟨Or.inl (by decide),
   C2_validation_failure_no_remote_calls _ _ _ _ _ _ _ (Or.inl (by decide))⟩

/-- C3: `client.close()` is called exactly once whenever the session was
acquired — validation passed and the `Client` constructor succeeded — in
every branch: full success or a failure at any of the three stages, and
even when the close itself raises; it is never called when validation
failed or session acquisition itself failed (`client` still `None`). -/
theorem C3_close_called_exactly_once_iff_acquired
    (stub : RemoteStub) (fs : FS) (inp out : Path) (rb : Bool) (st sd : Int) :
    countEvent Event.close (generate_3d_mesh_from_image stub fs inp out rb st sd).trace =
      if pathExists fs inp && (findFile fs.files out).isNone && stub.connectOk then 1 else 0 := by
  unfold generate_3d_mesh_from_image makedirs
  cases h1 : pathExists fs inp
  · simp [countEvent]
  · cases h2 : findFile fs.files out with
    | some v => simp [h2, countEvent]
    | none =>
      cases h3 : stub.connectOk
      · simp [h2, h3, countEvent]
      · cases h4 : stub.preprocessResult <;>
        cases h5 : stub.generateMvsResult <;>
        rcases h6 : stub.make3dResult with _ | ⟨aObj, aGlb⟩ <;>
        cases h7 : stub.closeOk <;>
        simp [h2, h3, h4, h5, h6, h7, countEvent, finishWith]

/-- A filesystem where the input path `in.png` exists as a directory. -/
def fsDirInput : FS := ⟨[], [["in.png"]], []⟩

/-- C6 counterexample: two invocations failing for different causes — a
missing input image versus a failed session establishment — both return
the very same value (`None`); the returned result wraps no cause and the
failure cases cannot be told apart from it (only the traces differ). -/
theorem C6_counterexample :
    (generate_3d_mesh_from_image stubAllOk ⟨[], [], []⟩ ["in.png"] ["o"] true 75 42).outcome
      = Outcome.failed ∧
    (generate_3d_mesh_from_image ⟨false, none, none, none, true⟩ fsInput
        ["in.png"] ["o"] true 75 42).outcome = Outcome.failed ∧
    (generate_3d_mesh_from_image stubAllOk ⟨[], [], []⟩ ["in.png"] ["o"] true 75 42).outcome =
      (generate_3d_mesh_from_image ⟨false, none, none, none, true⟩ fsInput
        ["in.png"] ["o"] true 75 42).outcome ∧
    (generate_3d_mesh_from_image stubAllOk ⟨[], [], []⟩ ["in.png"] ["o"] true 75 42).trace = [] ∧
    (generate_3d_mesh_from_image ⟨false, none, none, none, true⟩ fsInput
        ["in.png"] ["o"] true 75 42).trace = [Event.connect] := by
  decide

/-- C6 amended: every failing invocation returns the same bare failure
value `None` (`Outcome.failed`) — for a missing input image, an
uncreatable output directory, a failed session establishment, and a
failure at any of the three remote stages alike.  No error kind and no
underlying cause is carried by the returned result, so a caller cannot
distinguish the failure cases from the result alone. -/
theorem C6_amended_uniform_failure_result
    (stub : RemoteStub) (fs : FS) (inp out : Path) (rb : Bool) (st sd : Int) :
    (pathExists fs inp = false →
      (generate_3d_mesh_from_image stub fs inp out rb st sd).outcome = Outcome.failed) ∧
    ((findFile fs.files out).isSome = true →
      (generate_3d_mesh_from_image stub fs inp out rb st sd).outcome = Outcome.failed) ∧
    (pathExists fs inp = true → findFile fs.files out = none → stub.connectOk = false →
      (generate_3d_mesh_from_image stub fs inp out rb st sd).outcome = Outcome.failed) ∧
    (pathExists fs inp = true → findFile fs.files out = none → stub.connectOk = true →
      stub.closeOk = true → stub.preprocessResult = none →
      (generate_3d_mesh_from_image stub fs inp out rb st sd).outcome = Outcome.failed) ∧
    (pathExists fs inp = true → findFile fs.files out = none → stub.connectOk = true →
      stub.closeOk = true → stub.generateMvsResult = none →
      (generate_3d_mesh_from_image stub fs inp out rb st sd).outcome = Outcome.failed) ∧
    (pathExists fs inp = true → findFile fs.files out = none → stub.connectOk = true →
      stub.closeOk = true → stub.make3dResult = none →
      (generate_3d_mesh_from_image stub fs inp out rb st sd).outcome = Outcome.failed) := by
  unfold generate_3d_mesh_from_image makedirs
  refine ⟨?_, ?_, ?_, ?_, ?_, ?_⟩
  · intro h
    simp [h]
  · intro h
    cases h1 : pathExists fs inp
    · simp
    · simp [h]
  · intro h1 h2 h3
    simp [h1, h2, h3]
  · intro h1 h2 h3 h4 h5
    simp [h1, h2, h3, h4, h5, finishWith]
  · intro h1 h2 h3 h4 h5
    cases h6 : stub.preprocessResult <;>
    simp [h1, h2, h3, h4, h5, h6, finishWith]
  · intro h1 h2 h3 h4 h5
    cases h6 : stub.preprocessResult <;>
    cases h7 : stub.generateMvsResult <;>
    simp [h1, h2, h3, h4, h5, h6, h7, finishWith]

theorem C6_witness :
    (generate_3d_mesh_from_image stubAllOk ⟨[], [], []⟩ ["in.png"] ["o"] true 75 42).outcome
      = Outcome.failed :=
  (C6_amended_uniform_failure_result stubAllOk ⟨[], [], []⟩ ["in.png"] ["o"] true 75 42).1
    (by decide)

/-- C10: input validation is `os.path.exists` only.  When the input path
names an existing directory, or an existing file whose read permission is
denied, validation passes and the remote session is still opened (the
connect call is recorded); a subsequent stage failure then surfaces as
the generic mid-pipeline `None`, not as the pre-session validation
failure (whose trace would be empty). -/
theorem C10_existence_only_validation
    (stub : RemoteStub) (fs : FS) (inp out : Path) (rb : Bool) (st sd : Int)
    (hout : findFile fs.files out = none)
    (hin : memPath fs.dirs inp = true ∨
      ((findFile fs.files inp).isSome = true ∧ memPath fs.unreadable inp = true))
    (hc : stub.connectOk = true) :
    countEvent Event.connect (generate_3d_mesh_from_image stub fs inp out rb st sd).trace = 1 ∧
    (stub.preprocessResult = none → stub.closeOk = true →
      (generate_3d_mesh_from_image stub fs inp out rb st sd).outcome = Outcome.failed) := by
  have hex : pathExists fs inp = true := by
    rcases hin with h | ⟨h, _⟩ <;> simp [pathExists, h]
  constructor
  · have := C3_close_called_exactly_once_iff_acquired stub fs inp out rb st sd
    unfold generate_3d_mesh_from_image makedirs
    cases h4 : stub.preprocessResult <;>
    cases h5 : stub.generateMvsResult <;>
    rcases h6 : stub.make3dResult with _ | ⟨aObj, aGlb⟩ <;>
    cases h7 : stub.closeOk <;>
    simp [hex, hout, hc, h4, h5, h6, h7, countEvent, finishWith]
  · intro hp hcl
    unfold generate_3d_mesh_from_image makedirs
    simp [hex, hout, hc, hp, hcl, finishWith]

theorem C10_witness :
    countEvent Event.connect
      (generate_3d_mesh_from_image ⟨true, none, none, none, true⟩ fsDirInput
        ["in.png"] ["o"] true 75 42).trace = 1 ∧
    (generate_3d_mesh_from_image ⟨true, none, none, none, true⟩ fsDirInput
        ["in.png"] ["o"] true 75 42).outcome = Outcome.failed :=
  ⟨(C10_existence_only_validation _ _ _ _ _ _ _ (by decide) (Or.inl (by decide)) (by decide)).1,
   (C10_existence_only_validation _ _ _ _ _ _ _ (by decide) (Or.inl (by decide)) (by decide)).2
     (by decide) (by decide)⟩

/-- C5: when the remote service fails on the second stage (multi-view),
the function returns the pipeline failure (`None`, from the single
top-level handler around the remote stages), the output directory
contains the first-stage artifact `preprocessed_image.png` with the
stage-1 content, and no other file — in particular no mesh file — was
created in it. -/
theorem C5_stage2_failure_partial_progress
    (stub : RemoteStub) (fs : FS) (inp out : Path) (rb : Bool) (st sd : Int) (a1 : Artifact)
    (hex : pathExists fs inp = true) (hout : findFile fs.files out = none)
    (hemp : ∀ name : String, findFile fs.files (joinPath out name) = none)
    (hc : stub.connectOk = true) (hp : stub.preprocessResult = some a1)
    (hm : stub.generateMvsResult = none) (hcl : stub.closeOk = true) :
    (generate_3d_mesh_from_image stub fs inp out rb st sd).outcome = Outcome.failed ∧
    findFile (generate_3d_mesh_from_image stub fs inp out rb st sd).fs.files
      (joinPath out "preprocessed_image.png") = some a1.content ∧
    ∀ name : String, name ≠ "preprocessed_image.png" →
      findFile (generate_3d_mesh_from_image stub fs inp out rb st sd).fs.files
        (joinPath out name) = none := by
  unfold generate_3d_mesh_from_image makedirs
  simp only [hex, hout, hc, hp, hm, finishWith, hcl, writeFile]
  simp [findFile_setFile]
  intro name hne
  rw [if_neg, hemp name]
  intro h
  exact hne (joinPath_inj.mp h).symm

theorem C5_witness :
    (generate_3d_mesh_from_image ⟨true, some ⟨["tmp", "p.png"], "proc"⟩, none, none, true⟩
        fsDirInput ["in.png"] ["o"] true 75 42).outcome = Outcome.failed ∧
    findFile (generate_3d_mesh_from_image
        ⟨true, some ⟨["tmp", "p.png"], "proc"⟩, none, none, true⟩
        fsDirInput ["in.png"] ["o"] true 75 42).fs.files
      (joinPath ["o"] "preprocessed_image.png") = some "proc" ∧
    findFile (generate_3d_mesh_from_image
        ⟨true, some ⟨["tmp", "p.png"], "proc"⟩, none, none, true⟩
        fsDirInput ["in.png"] ["o"] true 75 42).fs.files (joinPath ["o"] "mesh.obj") = none := by
  have h := C5_stage2_failure_partial_progress
    ⟨true, some ⟨["tmp", "p.png"], "proc"⟩, none, none, true⟩ fsDirInput
    ["in.png"] ["o"] true 75 42 ⟨["tmp", "p.png"], "proc"⟩
    (by decide) (by decide) (fun _ => rfl) (by decide) (by decide) (by decide) (by decide)
  exact ⟨h.1, h.2.1, h.2.2 "mesh.obj" (by decide)⟩

/-- C7: the remote stage calls always happen in the fixed total order
preprocess, then generate multi-view, then reconstruct — each at most
once, possibly cut off by a failure but never reordered or skipped over
— and whenever any stage call happens, exactly one session (one connect,
recorded before the stages) carries all of them.  The reconstruct call
(`Event.make3d`) carries no artifact argument, and the stub's
`make3dResult` type returns exactly two artifact references, mirroring
the source's `/make3d` call and its two-element result. -/
theorem C7_stage_order
    (stub : RemoteStub) (fs : FS) (inp out : Path) (rb : Bool) (st sd : Int) :
    stageOrderOk (stageTags (generate_3d_mesh_from_image stub fs inp out rb st sd).trace) = true ∧
    countEvent Event.connect (generate_3d_mesh_from_image stub fs inp out rb st sd).trace ≤ 1 ∧
    (stageTags (generate_3d_mesh_from_image stub fs inp out rb st sd).trace ≠ [] →
      countEvent Event.connect (generate_3d_mesh_from_image stub fs inp out rb st sd).trace = 1) := by
  unfold generate_3d_mesh_from_image makedirs
  cases h1 : pathExists fs inp
  · simp [stageTags, stageOrderOk, countEvent]
  · cases h2 : findFile fs.files out with
    | some v => simp [stageTags, stageOrderOk, countEvent]
    | none =>
      cases h3 : stub.connectOk
      · simp [h3, stageTags, stageOrderOk, countEvent]
      · cases h4 : stub.preprocessResult <;>
        cases h5 : stub.generateMvsResult <;>
        rcases h6 : stub.make3dResult with _ | ⟨aObj, aGlb⟩ <;>
        cases h7 : stub.closeOk <;>
        simp [h3, h4, h5, h6, h7, stageTags, stageOrderOk, countEvent, finishWith]

theorem C7_witness :
    stageOrderOk (stageTags
      (generate_3d_mesh_from_image stubAllOk fsInput ["in.png"] ["o"] true 75 42).trace) = true ∧
    countEvent Event.connect
      (generate_3d_mesh_from_image stubAllOk fsInput ["in.png"] ["o"] true 75 42).trace = 1 :=
  ⟨(C7_stage_order stubAllOk fsInput ["in.png"] ["o"] true 75 42).1,
   (C7_stage_order stubAllOk fsInput ["in.png"] ["o"] true 75 42).2.2 (by decide)⟩

/-- C4 counterexample: an invocation where the preprocess stage raises
(the primary error) and `client.close()` itself then raises: the function
does not report the primary error — the exception from the `finally`
block escapes and replaces the pending `return None`, so the caller sees
a raised close error instead of the primary failure result. -/
theorem C4_counterexample :
    (generate_3d_mesh_from_image ⟨true, none, none, none, false⟩ fsInput
        ["in.png"] ["o"] true 75 42).outcome = Outcome.raised ∧
    (generate_3d_mesh_from_image ⟨true, none, none, none, false⟩ fsInput
        ["in.png"] ["o"] true 75 42).outcome ≠ Outcome.failed := by
  decide

/-- C4 amended: whenever the session was acquired and releasing it fails,
the close exception escapes `generate_3d_mesh_from_image` and replaces
whatever the function was about to return — the primary pipeline error
(`None`) as well as a successful result: a session-release failure always
masks the primary outcome. -/
theorem C4_amended_close_failure_replaces_result
    (stub : RemoteStub) (fs : FS) (inp out : Path) (rb : Bool) (st sd : Int)
    (h1 : pathExists fs inp = true) (h2 : findFile fs.files out = none)
    (h3 : stub.connectOk = true) (h7 : stub.closeOk = false) :
    (generate_3d_mesh_from_image stub fs inp out rb st sd).outcome = Outcome.raised := by
  unfold generate_3d_mesh_from_image makedirs
  cases h4 : stub.preprocessResult <;>
  cases h5 : stub.generateMvsResult <;>
  rcases h6 : stub.make3dResult with _ | ⟨aObj, aGlb⟩ <;>
  simp [h1, h2, h3, h4, h5, h6, h7, finishWith]

theorem C4_witness :
    (generate_3d_mesh_from_image ⟨true, some ⟨["tmp", "p.png"], "proc"⟩, none, none, false⟩
        fsInput ["in.png"] ["o"] true 75 42).outcome = Outcome.raised :=
  C4_amended_close_failure_replaces_result _ _ _ _ _ _ _
    (by decide) (by decide) (by decide) (by decide)

/-- C1 counterexample: a fully successful run (stub basenames `mesh.obj`
and `mesh.glb`) does save `preprocessed_image.png`, yet the returned
success result does not contain all four saved local paths: the source
returns only the tuple `(obj_filename, glb_filename)`, so the
preprocessed-image and multi-view paths are absent from the result. -/
theorem C1_counterexample :
    (generate_3d_mesh_from_image stubAllOk fsInput ["in.png"] ["o"] true 75 42).outcome
      = Outcome.ok ["o", "mesh.obj"] ["o", "mesh.glb"] ∧
    findFile (generate_3d_mesh_from_image stubAllOk fsInput ["in.png"] ["o"] true 75 42).fs.files
      ["o", "preprocessed_image.png"] = some "proc" ∧
    ["o", "preprocessed_image.png"] ∉
      resultPaths (generate_3d_mesh_from_image stubAllOk fsInput ["in.png"] ["o"] true 75 42).outcome ∧
    ["o", "multiview_generation.png"] ∉
      resultPaths (generate_3d_mesh_from_image stubAllOk fsInput ["in.png"] ["o"] true 75 42).outcome := by
  decide

/-- C1 amended: when validation passes and all three remote stages and
all local copies succeed, with the stub returning artifact basenames
`mesh.obj` and `mesh.glb`, the run produces exactly four files in the
(initially empty) output directory — `preprocessed_image.png`,
`multiview_generation.png`, `mesh.obj`, `mesh.glb`, each with its stage's
content — and returns a success result containing exactly the two saved
mesh paths (OBJ then GLB), matching those two file locations; the
preprocessed and multi-view paths are saved but not returned. -/
theorem C1_amended_success_files_and_result
    (stub : RemoteStub) (fs : FS) (inp out : Path) (rb : Bool) (st sd : Int)
    (a1 a2 aObj aGlb : Artifact)
    (hex : pathExists fs inp = true) (hout : findFile fs.files out = none)
    (hemp : ∀ name : String, findFile fs.files (joinPath out name) = none)
    (hc : stub.connectOk = true)
    (hp : stub.preprocessResult = some a1)
    (hm : stub.generateMvsResult = some a2)
    (h3 : stub.make3dResult = some (aObj, aGlb))
    (hbo : basename aObj.path = "mesh.obj")
    (hbg : basename aGlb.path = "mesh.glb")
    (hcl : stub.closeOk = true) :
    (generate_3d_mesh_from_image stub fs inp out rb st sd).outcome
      = Outcome.ok (joinPath out "mesh.obj") (joinPath out "mesh.glb") ∧
    resultPaths (generate_3d_mesh_from_image stub fs inp out rb st sd).outcome
      = [joinPath out "mesh.obj", joinPath out "mesh.glb"] ∧
    findFile (generate_3d_mesh_from_image stub fs inp out rb st sd).fs.files
      (joinPath out "preprocessed_image.png") = some a1.content ∧
    findFile (generate_3d_mesh_from_image stub fs inp out rb st sd).fs.files
      (joinPath out "multiview_generation.png") = some a2.content ∧
    findFile (generate_3d_mesh_from_image stub fs inp out rb st sd).fs.files
      (joinPath out "mesh.obj") = some aObj.content ∧
    findFile (generate_3d_mesh_from_image stub fs inp out rb st sd).fs.files
      (joinPath out "mesh.glb") = some aGlb.content ∧
    ∀ name : String,
      name ∉ (["preprocessed_image.png", "multiview_generation.png",
                "mesh.obj", "mesh.glb"] : List String) →
      findFile (generate_3d_mesh_from_image stub fs inp out rb st sd).fs.files
        (joinPath out name) = none := by
  unfold generate_3d_mesh_from_image makedirs
  simp only [hex, hout, hc, hp, hm, h3, hbo, hbg, hcl, finishWith, writeFile]
  simp [findFile_setFile, joinPath_inj]
  constructor
  · simp [resultPaths]
  · intro name n1 n2 n3 n4
    rw [if_neg (fun h => n4 h.symm), if_neg (fun h => n3 h.symm),
        if_neg (fun h => n2 h.symm), if_neg (fun h => n1 h.symm), hemp name]

theorem C1_witness :
    (generate_3d_mesh_from_image stubAllOk fsDirInput ["in.png"] ["o"] true 75 42).outcome
      = Outcome.ok (joinPath ["o"] "mesh.obj") (joinPath ["o"] "mesh.glb") ∧
    findFile (generate_3d_mesh_from_image stubAllOk fsDirInput ["in.png"] ["o"] true 75 42).fs.files
      (joinPath ["o"] "preprocessed_image.png") = some "proc" ∧
    findFile (generate_3d_mesh_from_image stubAllOk fsDirInput ["in.png"] ["o"] true 75 42).fs.files
      (joinPath ["o"] "other.txt") = none :=
  have h := C1_amended_success_files_and_result stubAllOk fsDirInput ["in.png"] ["o"] true 75 42
    ⟨["tmp", "p.png"], "proc"⟩ ⟨["tmp", "m.png"], "mv"⟩
    ⟨["tmp", "mesh.obj"], "OBJ"⟩ ⟨["tmp", "mesh.glb"], "GLB"⟩
    (by decide) (by decide) (fun _ => rfl) (by decide) (by decide) (by decide)
    (by decide) (by decide) (by decide) (by decide)
  ⟨h.1, h.2.2.1, h.2.2.2.2.2.2 "other.txt" (by decide)⟩

theorem finishWith_fs (stub : RemoteStub) (o : Outcome) (fs : FS) (tr : List Event) :
    (finishWith stub o fs tr).fs = fs := by
  unfold finishWith
  split <;> rfl

/-- A filesystem whose only file sits at `o/preprocessed_image.png` — the
very path the first-stage copy writes to when the output directory is
`o`. -/
def fsAlias : FS := ⟨[(["o", "preprocessed_image.png"], "orig")], [], []⟩

/-- C8 counterexample: an invocation whose input image lives at
`o/preprocessed_image.png` with output directory `o`.  The run succeeds
and the stage-1 copy overwrites the input image file: its content changes
from `orig` to the preprocessed artifact's content, so the function does
modify the input image file. -/
theorem C8_counterexample :
    findFile fsAlias.files ["o", "preprocessed_image.png"] = some "orig" ∧
    (generate_3d_mesh_from_image stubAllOk fsAlias
        ["o", "preprocessed_image.png"] ["o"] true 75 42).outcome
      = Outcome.ok ["o", "mesh.obj"] ["o", "mesh.glb"] ∧
    findFile (generate_3d_mesh_from_image stubAllOk fsAlias
        ["o", "preprocessed_image.png"] ["o"] true 75 42).fs.files
      ["o", "preprocessed_image.png"] = some "proc" := by
  decide

/-- C8 amended: the invocation's only local filesystem writes are the
creation of the output directory and file writes at the artifact paths
(`preprocessed_image.png`, `multiview_generation.png`, and — when
`/make3d` returns — the two remote-named mesh files, all inside
`output_dir`): every path outside `artifactPaths` keeps its content,
directories at most gain `output_dir`, and read permissions are
untouched.  In particular the input image file is unmodified provided its
path is not one of the artifact paths (the unrestricted claim fails, see
the counterexample); pre-existing files at artifact paths are
overwritten. -/
theorem C8_amended_frame
    (stub : RemoteStub) (fs : FS) (inp out : Path) (rb : Bool) (st sd : Int) :
    (∀ p : Path, p ∉ artifactPaths stub out →
      findFile (generate_3d_mesh_from_image stub fs inp out rb st sd).fs.files p
        = findFile fs.files p) ∧
    ((generate_3d_mesh_from_image stub fs inp out rb st sd).fs.dirs = fs.dirs ∨
      (generate_3d_mesh_from_image stub fs inp out rb st sd).fs.dirs = out :: fs.dirs) ∧
    (generate_3d_mesh_from_image stub fs inp out rb st sd).fs.unreadable = fs.unreadable := by
  refine ⟨?_, ?_, ?_⟩
  · intro p hp
    unfold artifactPaths at hp
    unfold generate_3d_mesh_from_image makedirs
    cases h1 : pathExists fs inp
    · simp
    · cases h2 : findFile fs.files out with
      | some v => simp
      | none =>
        cases h3 : stub.connectOk
        · simp [h3]
        · rcases h6 : stub.make3dResult with _ | ⟨aObj, aGlb⟩
          · rw [h6] at hp
            simp at hp
            obtain ⟨e1, e2⟩ := hp
            cases h4 : stub.preprocessResult <;>
            cases h5 : stub.generateMvsResult <;>
            simp [h3, h4, h5, h6, finishWith_fs, writeFile, findFile_setFile,
              Ne.symm e1, Ne.symm e2]
          · rw [h6] at hp
            simp at hp
            obtain ⟨e1, e2, e3, e4⟩ := hp
            cases h4 : stub.preprocessResult <;>
            cases h5 : stub.generateMvsResult <;>
            simp [h3, h4, h5, h6, finishWith_fs, writeFile, findFile_setFile,
              Ne.symm e1, Ne.symm e2, Ne.symm e3, Ne.symm e4]
  · unfold generate_3d_mesh_from_image makedirs
    cases h1 : pathExists fs inp
    · simp
    · cases h2 : findFile fs.files out with
      | some v => simp
      | none =>
        cases hd : memPath fs.dirs out <;>
        cases h3 : stub.connectOk <;>
        cases h4 : stub.preprocessResult <;>
        cases h5 : stub.generateMvsResult <;>
        rcases h6 : stub.make3dResult with _ | ⟨aObj, aGlb⟩ <;>
        simp [hd, h3, h4, h5, h6, finishWith_fs, writeFile]
  · unfold generate_3d_mesh_from_image makedirs
    cases h1 : pathExists fs inp
    · simp
    · cases h2 : findFile fs.files out with
      | some v => simp
      | none =>
        cases h3 : stub.connectOk <;>
        cases h4 : stub.preprocessResult <;>
        cases h5 : stub.generateMvsResult <;>
        rcases h6 : stub.make3dResult with _ | ⟨aObj, aGlb⟩ <;>
        simp [h3, h4, h5, h6, finishWith_fs, writeFile]

theorem C8_witness :
    ¬ (["x"] ∈ artifactPaths stubAllOk ["o"]) ∧
    findFile (generate_3d_mesh_from_image stubAllOk fsInput
        ["in.png"] ["o"] true 75 42).fs.files ["x"] = findFile fsInput.files ["x"] ∧
    ((generate_3d_mesh_from_image stubAllOk fsInput ["in.png"] ["o"] true 75 42).fs.dirs
        = fsInput.dirs ∨
      (generate_3d_mesh_from_image stubAllOk fsInput ["in.png"] ["o"] true 75 42).fs.dirs
        = ["o"] :: fsInput.dirs) ∧
    (generate_3d_mesh_from_image stubAllOk fsInput
        ["in.png"] ["o"] true 75 42).fs.unreadable = fsInput.unreadable :=
  ⟨by decide,
   (C8_amended_frame stubAllOk fsInput ["in.png"] ["o"] true 75 42).1 ["x"] (by decide),
   (C8_amended_frame stubAllOk fsInput ["in.png"] ["o"] true 75 42).2.1,
   (C8_amended_frame stubAllOk fsInput ["in.png"] ["o"] true 75 42).2.2⟩

theorem findFile_setFile_isSome_mono (l : List (Path × String)) (p : Path) (c : String)
    (q : Path) (h : (findFile l q).isSome = true) :
    (findFile (setFile l p c) q).isSome = true := by
  rw [findFile_setFile]
  split <;> simp_all

theorem memPath_mono (l : List Path) (d p : Path) (h : memPath l p = true) :
    memPath (d :: l) p = true := by
  unfold memPath
  split <;> simp_all

theorem memPath_head (l : List Path) (d : Path) : memPath (d :: l) d = true := by
  simp [memPath]

/-- A fully successful run in closed form: the returned tuple holds the
two mesh paths, the filesystem gains the four artifact writes in stage
order plus the output directory, and the trace is connect, the three
stages in order, close. -/
theorem run_success_eq
    (stub : RemoteStub) (fs : FS) (inp out : Path) (rb : Bool) (st sd : Int)
    (a1 a2 aObj aGlb : Artifact)
    (hex : pathExists fs inp = true) (hout : findFile fs.files out = none)
    (hc : stub.connectOk = true) (hp : stub.preprocessResult = some a1)
    (hm : stub.generateMvsResult = some a2) (h3 : stub.make3dResult = some (aObj, aGlb))
    (hcl : stub.closeOk = true) :
    generate_3d_mesh_from_image stub fs inp out rb st sd =
      ⟨Outcome.ok (joinPath out (basename aObj.path)) (joinPath out (basename aGlb.path)),
       ⟨setFile (setFile (setFile (setFile fs.files
              (joinPath out "preprocessed_image.png") a1.content)
            (joinPath out "multiview_generation.png") a2.content)
            (joinPath out (basename aObj.path)) aObj.content)
            (joinPath out (basename aGlb.path)) aGlb.content,
        if memPath fs.dirs out then fs.dirs else out :: fs.dirs,
        fs.unreadable⟩,
       [Event.connect, Event.preprocess inp rb, Event.generateMvs a1.path st sd,
        Event.make3d, Event.close]⟩ := by
  unfold generate_3d_mesh_from_image makedirs finishWith writeFile
  simp [hex, hout, hc, hp, hm, h3, hcl]

/-- C9: with a deterministic stub on which every remote interaction
succeeds, running the function twice in sequence with identical inputs,
the second run starting from the filesystem the first one left behind
(the output directory being initially empty), is idempotent: the first
run succeeds, the second returns the identical result and trace, and the
filesystem after the second run is the same as after the first — same
directories and the same content at every path, in particular the same
four output files. -/
theorem C9_idempotent_rerun
    (stub : RemoteStub) (fs : FS) (inp out : Path) (rb : Bool) (st sd : Int)
    (a1 a2 aObj aGlb : Artifact)
    (hex : pathExists fs inp = true) (hout : findFile fs.files out = none)
    (hemp : ∀ name : String, findFile fs.files (joinPath out name) = none)
    (hc : stub.connectOk = true) (hp : stub.preprocessResult = some a1)
    (hm : stub.generateMvsResult = some a2) (h3 : stub.make3dResult = some (aObj, aGlb))
    (hcl : stub.closeOk = true) :
    (generate_3d_mesh_from_image stub fs inp out rb st sd).outcome
      = Outcome.ok (joinPath out (basename aObj.path)) (joinPath out (basename aGlb.path)) ∧
    (generate_3d_mesh_from_image stub
        (generate_3d_mesh_from_image stub fs inp out rb st sd).fs inp out rb st sd).outcome
      = (generate_3d_mesh_from_image stub fs inp out rb st sd).outcome ∧
    (generate_3d_mesh_from_image stub
        (generate_3d_mesh_from_image stub fs inp out rb st sd).fs inp out rb st sd).trace
      = (generate_3d_mesh_from_image stub fs inp out rb st sd).trace ∧
    (generate_3d_mesh_from_image stub
        (generate_3d_mesh_from_image stub fs inp out rb st sd).fs inp out rb st sd).fs.dirs
      = (generate_3d_mesh_from_image stub fs inp out rb st sd).fs.dirs ∧
    ∀ p : Path,
      findFile (generate_3d_mesh_from_image stub
          (generate_3d_mesh_from_image stub fs inp out rb st sd).fs inp out rb st sd).fs.files p
        = findFile (generate_3d_mesh_from_image stub fs inp out rb st sd).fs.files p := by
  have e1 := run_success_eq stub fs inp out rb st sd a1 a2 aObj aGlb
    hex hout hc hp hm h3 hcl
  rw [e1]
  have hex2 : pathExists
      (FS.mk (setFile (setFile (setFile (setFile fs.files
              (joinPath out "preprocessed_image.png") a1.content)
            (joinPath out "multiview_generation.png") a2.content)
            (joinPath out (basename aObj.path)) aObj.content)
            (joinPath out (basename aGlb.path)) aGlb.content)
        (if memPath fs.dirs out then fs.dirs else out :: fs.dirs)
        fs.unreadable) inp = true := by
    unfold pathExists at hex ⊢
    rcases Bool.or_eq_true_iff.mp hex with hf | hd
    · apply Bool.or_eq_true_iff.mpr
      exact Or.inl (findFile_setFile_isSome_mono _ _ _ _
        (findFile_setFile_isSome_mono _ _ _ _
          (findFile_setFile_isSome_mono _ _ _ _
            (findFile_setFile_isSome_mono _ _ _ _ hf))))
    · apply Bool.or_eq_true_iff.mpr
      refine Or.inr ?_
      cases hmo : memPath fs.dirs out
      · simp only [hmo, if_neg]
        exact memPath_mono _ _ _ hd
      · simp only [hmo]
        exact hd
  have hout2 : findFile (setFile (setFile (setFile (setFile fs.files
              (joinPath out "preprocessed_image.png") a1.content)
            (joinPath out "multiview_generation.png") a2.content)
            (joinPath out (basename aObj.path)) aObj.content)
            (joinPath out (basename aGlb.path)) aGlb.content) out = none := by
    rw [findFile_setFile, if_neg (joinPath_ne_self _ _),
        findFile_setFile, if_neg (joinPath_ne_self _ _),
        findFile_setFile, if_neg (joinPath_ne_self _ _),
        findFile_setFile, if_neg (joinPath_ne_self _ _)]
    exact hout
  have e2 := run_success_eq stub _ inp out rb st sd a1 a2 aObj aGlb
    hex2 hout2 hc hp hm h3 hcl
  rw [e2]
  refine ⟨rfl, rfl, rfl, ?_, ?_⟩
  · cases hmo : memPath fs.dirs out
    · simp [hmo, memPath_head]
    · simp [hmo]
  · intro p
    simp only [findFile_setFile]
    split_ifs <;> rfl

theorem C9_witness :
    (generate_3d_mesh_from_image stubAllOk fsDirInput ["in.png"] ["o"] true 75 42).outcome
      = Outcome.ok ["o", "mesh.obj"] ["o", "mesh.glb"] ∧
    (generate_3d_mesh_from_image stubAllOk
        (generate_3d_mesh_from_image stubAllOk fsDirInput ["in.png"] ["o"] true 75 42).fs
        ["in.png"] ["o"] true 75 42).outcome
      = (generate_3d_mesh_from_image stubAllOk fsDirInput ["in.png"] ["o"] true 75 42).outcome ∧
    findFile (generate_3d_mesh_from_image stubAllOk
        (generate_3d_mesh_from_image stubAllOk fsDirInput ["in.png"] ["o"] true 75 42).fs
        ["in.png"] ["o"] true 75 42).fs.files ["o", "mesh.obj"]
      = findFile (generate_3d_mesh_from_image stubAllOk fsDirInput
          ["in.png"] ["o"] true 75 42).fs.files ["o", "mesh.obj"] :=
  have h := C9_idempotent_rerun stubAllOk fsDirInput ["in.png"] ["o"] true 75 42
    ⟨["tmp", "p.png"], "proc"⟩ ⟨["tmp", "m.png"], "mv"⟩
    ⟨["tmp", "mesh.obj"], "OBJ"⟩ ⟨["tmp", "mesh.glb"], "GLB"⟩
    (by decide) (by decide) (fun _ => rfl) (by decide) (by decide) (by decide)
    (by decide) (by decide)
  ⟨h.1, h.2.1, h.2.2.2.2 ["o", "mesh.obj"]⟩

end InstantMesh
